import Mathlib

/-!
Verification of the field-value normalization and tabular-aggregation
pipeline of `jira_report.py` (class `JiraReport`): the nested helper
`extract_value` inside `generate_dataframes_by_jql`, the row-tabulation
loop of `generate_dataframes_by_jql`, and
`generate_groupby_count_dataframe` (a `df.groupby(col).size()` wrapper).

Python values that can appear as a Jira field value are modelled by the
inductive `RawField`; Python floats are carried as rationals (they are only
passed through unchanged, never computed with).  `bool` is a separate
constructor because CPython's `type(True)` is `bool`, not `int`, so the
source's exact-type test `type(field) in [str, int, float]` excludes
booleans.  Dicts are association lists with unique keys (Python dicts);
`List.lookup` is the model of `dict.get`/`dict[...]`.
-/

/-- Model of a Python value that may appear as a raw Jira field value. -/
inductive RawField where
  | null : RawField
  | str (s : String) : RawField
  | int (n : Int) : RawField
  | float (q : ℚ) : RawField
  | bool (b : Bool) : RawField
  | dict (d : List (String × RawField)) : RawField
  | list (l : List RawField) : RawField

mutual
/-- Decidable equality for `RawField` (the automatic deriving handler does
not support this nested inductive). -/
def deqRF : (a b : RawField) → Decidable (a = b)
  | .null, .null => isTrue rfl
  | .str s, .str t =>
      match decEq s t with
      | isTrue h => isTrue (by rw [h])
      | isFalse h => isFalse (by simp [h])
  | .int m, .int n =>
      match decEq m n with
      | isTrue h => isTrue (by rw [h])
      | isFalse h => isFalse (by simp [h])
  | .float p, .float q =>
      match decEq p q with
      | isTrue h => isTrue (by rw [h])
      | isFalse h => isFalse (by simp [h])
  | .bool a, .bool b =>
      match decEq a b with
      | isTrue h => isTrue (by rw [h])
      | isFalse h => isFalse (by simp [h])
  | .dict d, .dict e =>
      match deqDict d e with
      | isTrue h => isTrue (by rw [h])
      | isFalse h => isFalse (by simp [h])
  | .list l, .list m =>
      match deqList l m with
      | isTrue h => isTrue (by rw [h])
      | isFalse h => isFalse (by simp [h])
  | .null, .str _ => isFalse (by simp)
  | .null, .int _ => isFalse (by simp)
  | .null, .float _ => isFalse (by simp)
  | .null, .bool _ => isFalse (by simp)
  | .null, .dict _ => isFalse (by simp)
  | .null, .list _ => isFalse (by simp)
  | .str _, .null => isFalse (by simp)
  | .str _, .int _ => isFalse (by simp)
  | .str _, .float _ => isFalse (by simp)
  | .str _, .bool _ => isFalse (by simp)
  | .str _, .dict _ => isFalse (by simp)
  | .str _, .list _ => isFalse (by simp)
  | .int _, .null => isFalse (by simp)
  | .int _, .str _ => isFalse (by simp)
  | .int _, .float _ => isFalse (by simp)
  | .int _, .bool _ => isFalse (by simp)
  | .int _, .dict _ => isFalse (by simp)
  | .int _, .list _ => isFalse (by simp)
  | .float _, .null => isFalse (by simp)
  | .float _, .str _ => isFalse (by simp)
  | .float _, .int _ => isFalse (by simp)
  | .float _, .bool _ => isFalse (by simp)
  | .float _, .dict _ => isFalse (by simp)
  | .float _, .list _ => isFalse (by simp)
  | .bool _, .null => isFalse (by simp)
  | .bool _, .str _ => isFalse (by simp)
  | .bool _, .int _ => isFalse (by simp)
  | .bool _, .float _ => isFalse (by simp)
  | .bool _, .dict _ => isFalse (by simp)
  | .bool _, .list _ => isFalse (by simp)
  | .dict _, .null => isFalse (by simp)
  | .dict _, .str _ => isFalse (by simp)
  | .dict _, .int _ => isFalse (by simp)
  | .dict _, .float _ => isFalse (by simp)
  | .dict _, .bool _ => isFalse (by simp)
  | .dict _, .list _ => isFalse (by simp)
  | .list _, .null => isFalse (by simp)
  | .list _, .str _ => isFalse (by simp)
  | .list _, .int _ => isFalse (by simp)
  | .list _, .float _ => isFalse (by simp)
  | .list _, .bool _ => isFalse (by simp)
  | .list _, .dict _ => isFalse (by simp)

/-- Decidable equality for dict entry lists. -/
def deqDict : (d e : List (String × RawField)) → Decidable (d = e)
  | [], [] => isTrue rfl
  | (k, v) :: d, (k2, v2) :: e =>
      match decEq k k2, deqRF v v2, deqDict d e with
      | isTrue h1, isTrue h2, isTrue h3 => isTrue (by rw [h1, h2, h3])
      | isFalse h1, _, _ => isFalse (by simp [h1])
      | _, isFalse h2, _ => isFalse (by simp [h2])
      | _, _, isFalse h3 => isFalse (by simp [h3])
  | [], _ :: _ => isFalse (by simp)
  | _ :: _, [] => isFalse (by simp)

/-- Decidable equality for lists of `RawField`. -/
def deqList : (l m : List RawField) → Decidable (l = m)
  | [], [] => isTrue rfl
  | x :: l, y :: m =>
      match deqRF x y, deqList l m with
      | isTrue h1, isTrue h2 => isTrue (by rw [h1, h2])
      | isFalse h1, _ => isFalse (by simp [h1])
      | _, isFalse h2 => isFalse (by simp [h2])
  | [], _ :: _ => isFalse (by simp)
  | _ :: _, [] => isFalse (by simp)
end

instance : DecidableEq RawField := deqRF

/-- Python truthiness (`bool(x)`) for the modelled values: `None`, `""`,
`0`, `0.0`, `False`, `{}` and `[]` are falsy, everything else truthy. -/
def truthy : RawField → Bool
  | .null => false
  | .str s => s != ""
  | .int n => n != 0
  | .float q => decide (q ≠ 0)
  | .bool b => b
  | .dict d => !d.isEmpty
  | .list l => !l.isEmpty

/-- `field.get(k)`: the value stored under `k`, or Python `None` when the
key is absent. -/
def pyGet (d : List (String × RawField)) (k : String) : RawField :=
  match d.lookup k with
  | some v => v
  | none => RawField.null

/-- Errors `extract_value` can raise: the explicit
`raise Exception(f'{field} type of field is not supported...')` (carrying
the offending value), and the `TypeError` that `', '.join` raises when a
list element did not normalize to a `str`. -/
inductive ExtractErr where
  | unsupported (offending : RawField) : ExtractErr
  | joinTypeError : ExtractErr

instance : DecidableEq ExtractErr := fun a b =>
  match a, b with
  | .unsupported x, .unsupported y =>
      match deqRF x y with
      | isTrue h => isTrue (by rw [h])
      | isFalse h => isFalse (by simp [h])
  | .joinTypeError, .joinTypeError => isTrue rfl
  | .unsupported _, .joinTypeError => isFalse (by simp)
  | .joinTypeError, .unsupported _ => isFalse (by simp)

instance {ε α : Type} [DecidableEq ε] [DecidableEq α] : DecidableEq (Except ε α) :=
  fun a b =>
  match a, b with
  | .ok x, .ok y =>
      match decEq x y with
      | isTrue h => isTrue (by rw [h])
      | isFalse h => isFalse (by simp [h])
  | .error x, .error y =>
      match decEq x y with
      | isTrue h => isTrue (by rw [h])
      | isFalse h => isFalse (by simp [h])
  | .ok _, .error _ => isFalse (by simp)
  | .error _, .ok _ => isFalse (by simp)

/-- `', '.join(xs)`: every element must be a Python `str`, else `TypeError`
(checked left to right, after the whole comprehension has been built). -/
def pyJoin : List RawField → Except ExtractErr String
  | [] => .ok ""
  | [RawField.str s] => .ok s
  | RawField.str s :: x :: xs => do
      let rest ← pyJoin (x :: xs)
      .ok (s ++ ", " ++ rest)
  | _ :: _ => .error ExtractErr.joinTypeError

mutual
/-- The nested function `extract_value` of `generate_dataframes_by_jql`
(jira_report.py lines 122-134), translated branch by branch:
`if field is None: 'N/A'` evaluates the string literal, discards it and
falls off the function, so Python returns `None` (modelled `.ok .null`);
`type(field) in [str, int, float]` returns the scalar unchanged (booleans
are excluded: `type(True) is bool`); a dict whose `.get('value')` is truthy
returns `field['value']`, else if `.get('name')` is truthy returns
`field['name']`; a list extracts each element (the comprehension
propagates the first error) and joins with `', '`; anything else raises. -/
def extract_value : RawField → Except ExtractErr RawField
  | .null => .ok .null
  | .str s => .ok (.str s)
  | .int n => .ok (.int n)
  | .float q => .ok (.float q)
  | .dict d =>
      if truthy (pyGet d "value") then .ok (pyGet d "value")
      else if truthy (pyGet d "name") then .ok (pyGet d "name")
      else .error (ExtractErr.unsupported (.dict d))
  | .list l => do
      let vs ← extract_list l
      let s ← pyJoin vs
      .ok (.str s)
  | .bool b => .error (ExtractErr.unsupported (.bool b))

/-- The list comprehension `[extract_value(i) for i in field]`: evaluates
left to right, propagating the first raised error. -/
def extract_list : List RawField → Except ExtractErr (List RawField)
  | [] => .ok []
  | x :: xs => do
      let v ← extract_value x
      let vs ← extract_list xs
      .ok (v :: vs)
end

example : extract_value (.list [.str "a", .str "b", .str "c"])
    = .ok (.str "a, b, c") := by decide

example : extract_value (.list [.int 1]) = .error .joinTypeError := by decide

example : extract_value (.dict [("value", .int 0), ("name", .str "A")])
    = .ok (.str "A") := by decide

/-- A row of the tabular dataset: a Python dict mapping field display
names to normalized values (`extract_value` results). -/
abbrev Row := List (String × RawField)

/-- Errors the tabulation loop of `generate_dataframes_by_jql` can raise:
`all_jira_fields[k]` raises `KeyError` for an id absent from the field
catalog (the spec's `UnknownFieldId`), and `extract_value` errors
propagate unmodified. -/
inductive TabErr where
  | keyError (fieldId : String) : TabErr
  | extractErr (e : ExtractErr) : TabErr

instance : DecidableEq TabErr := fun a b =>
  match a, b with
  | .keyError x, .keyError y =>
      match decEq x y with
      | isTrue h => isTrue (by rw [h])
      | isFalse h => isFalse (by simp [h])
  | .extractErr x, .extractErr y =>
      match decEq x y with
      | isTrue h => isTrue (by rw [h])
      | isFalse h => isFalse (by simp [h])
  | .keyError _, .extractErr _ => isFalse (by simp)
  | .extractErr _, .keyError _ => isFalse (by simp)

/-- Python dict insertion `d[k] = v`: replaces in place when the key is
already present (keeping its position), else appends at the end. -/
def dictInsert (d : Row) (k : String) (v : RawField) : Row :=
  if d.any (fun p => p.1 == k) then
    d.map (fun p => if p.1 == k then (k, v) else p)
  else d ++ [(k, v)]

/-- The dict comprehension
`{all_jira_fields[k]['name']: extract_value(v) for k, v in issue['fields'].items()}`
(jira_report.py line 141), threaded over the items left to right with an
accumulator.  For each item the key expression `all_jira_fields[k]['name']`
is evaluated first (CPython ≥ 3.8 evaluates a dict comprehension's key
before its value): an id absent from the catalog raises `KeyError` there;
then `extract_value(v)` runs and its exceptions propagate. -/
def buildRowAux (catalog : List (String × String)) (acc : Row) :
    List (String × RawField) → Except TabErr Row
  | [] => .ok acc
  | (k, v) :: rest =>
      match catalog.lookup k with
      | none => .error (TabErr.keyError k)
      | some name =>
          match extract_value v with
          | .error e => .error (TabErr.extractErr e)
          | .ok nv => buildRowAux catalog (dictInsert acc name nv) rest

/-- One record's Row: the dict comprehension starting from an empty dict. -/
def buildRow (catalog : List (String × String)) (fields : List (String × RawField)) :
    Except TabErr Row :=
  buildRowAux catalog [] fields

/-- The `for issue in ...: df.append({...})` loop: builds one Row per
issue, in input order, aborting at the first error. -/
def buildRows (catalog : List (String × String)) :
    List (List (String × RawField)) → Except TabErr (List Row)
  | [] => .ok []
  | i :: is => do
      let r ← buildRow catalog i
      let rs ← buildRows catalog is
      .ok (r :: rs)

/-- Model of `pandas.DataFrame(list_of_dicts)`: the rows, plus the column
universe (union of the rows' keys in first-seen order). -/
structure PDataFrame where
  columns : List String
  rows : List Row
deriving DecidableEq

/-- Column universe of `DataFrame(rows)`: union of keys, first-seen order. -/
def unionColumns (rows : List Row) : List String :=
  rows.foldl
    (fun acc r =>
      r.foldl (fun acc2 p => if p.1 ∈ acc2 then acc2 else acc2 ++ [p.1]) acc)
    []

/-- `DataFrame(rows)` for a list of row dicts. -/
def mkDataFrame (rows : List Row) : PDataFrame :=
  { columns := unionColumns rows, rows := rows }

/-- The grouping key of one row for `df.groupby(col)`: the cell stored
under `col`, except that a missing cell counts as no key.  A cell is
missing when the row's dict has no entry for `col` (pandas fills `NaN`
there) or the stored value is Python `None` (an `extract_value` result for
a null field); `groupby`'s default `dropna=True` excludes both from every
group. -/
def rowKey (col : String) (r : Row) : Option RawField :=
  match r.lookup col with
  | some v => if v = RawField.null then none else some v
  | none => none

/-- `generate_groupby_count_dataframe` (jira_report.py lines 151-163):
`df.groupby(groupby).size().reset_index(name=count_column_name)`, i.e. one
output row per distinct non-missing value in column `groupby`, paired with
the number of rows carrying that value.  The count column name only labels
the second component; the output is modelled as the list of
(value, count) pairs (pandas orders group keys by its own sort; every
claim about this output is order-insensitive, so the model's key order —
`List.dedup` of the observed keys — stands in for it). -/
def generate_groupby_count_dataframe (df : PDataFrame) (groupby : String) :
    List (RawField × Nat) :=
  ((df.rows.filterMap (rowKey groupby)).dedup).map
    (fun v => (v, (df.rows.filter (fun r => rowKey groupby r = some v)).length))

/-- `generate_dataframes_by_jql` (jira_report.py lines 106-149), with the
two external collaborator calls replaced by their results: `catalog` is
`{i['id']: i['name']}` built from `self.jira_api.fields()` (only the
`'name'` projection of each field object is ever read), and `issues` is
the list of `issue['fields']` dicts from `search_issues(...)['issues']`.
Builds one Row per issue, reifies them into a DataFrame, then pairs every
column of that DataFrame with `generate_groupby_count_dataframe` of the
same DataFrame.  Exceptions (KeyError, extraction errors) propagate to the
caller: there is no try/except in the function. -/
def generate_dataframes_by_jql (catalog : List (String × String))
    (issues : List (List (String × RawField))) :
    Except TabErr (PDataFrame × List (String × List (RawField × Nat))) := do
  let rows ← buildRows catalog issues
  let df := mkDataFrame rows
  .ok (df, df.columns.map (fun c => (c, generate_groupby_count_dataframe df c)))

/-- Whether a normalized value is a string or numeric scalar (the spec's
NormalizedValue shape). -/
def isScalarNorm : RawField → Bool
  | .str _ => true
  | .int _ => true
  | .float _ => true
  | _ => false

/-! ## Helper lemmas -/

/-- Counting the rows whose grouping key is `v` equals counting `v` among
the observed (non-missing) keys. -/
theorem length_filter_rowKey_eq_count (rows : List Row) (col : String) (v : RawField) :
    (rows.filter (fun r => rowKey col r = some v)).length
      = (rows.filterMap (rowKey col)).count v := by
  induction rows with
  | nil => simp
  | cons r rs ih =>
      cases h : rowKey col r with
      | none => simp [List.filter_cons, List.filterMap_cons, h, ih]
      | some w =>
          by_cases hw : w = v
          · subst hw
            simp [List.filter_cons, List.filterMap_cons, h, List.count_cons, ih]
          · simp [List.filter_cons, List.filterMap_cons, h, List.count_cons, hw, ih]

/-- The grouping key of a one-entry row. -/
theorem rowKey_single (col : String) (v : RawField) :
    rowKey col [(col, v)] = if v = RawField.null then none else some v := by
  simp [rowKey, List.lookup]

/-- Looking up a key of a tabulated association built by mapping a
function over a list of keys. -/
theorem lookup_map_pair {β : Type} (l : List String) (f : String → β) (c : String)
    (hc : c ∈ l) : (l.map (fun x => (x, f x))).lookup c = some (f c) := by
  induction l with
  | nil => simp at hc
  | cons x xs ih =>
      by_cases hx : c = x
      · subst hx
        simp [List.lookup]
      · rcases List.mem_cons.mp hc with h | h
        · exact absurd h hx
        · have hbx : (c == x) = false := by simp [hx]
          simpa [List.lookup, hbx] using ih h

/-! ## Claims -/

/-- C1: the claim states a null raw field extracts to the sentinel string
"N/A".  In the source, line 124 is the bare expression `'N/A'`: the string
is computed and discarded, the branch falls off the function, and Python
implicitly returns `None`.  The normalized value for a null field is
therefore Python `None`, never the string "N/A". -/
theorem extract_value_null_no_marker :
    extract_value RawField.null = Except.ok RawField.null ∧
    extract_value RawField.null ≠ Except.ok (RawField.str "N/A") := by
  decide

/-- C2 counterexample: on a dataset of two rows where the second row's
cell under "A" is missing, the groupby produces only the group of the
present value: missing cells form no group of their own, and the total
count across groups is 1, not the row count 2. -/
theorem groupby_count_missing_cell_cex :
    generate_groupby_count_dataframe (mkDataFrame [[("A", RawField.str "x")], []]) "A"
      = [(RawField.str "x", 1)] ∧
    ((generate_groupby_count_dataframe (mkDataFrame [[("A", RawField.str "x")], []]) "A").map
        Prod.snd).sum = 1 ∧
    (mkDataFrame [[("A", RawField.str "x")], []]).rows.length = 2 := by
  decide

/-- C2 amended: `groupby(col).size()` (with pandas' default `dropna=True`)
excludes missing cells — a row whose cell under the column is absent or
Python `None` belongs to no group — so the total count across groups
equals the number of rows with a present, non-null cell; for a column
with present values [x, x, y] the result is exactly the pairs
(x, 2) and (y, 1). -/
theorem generate_groupby_count_dataframe_correct (df : PDataFrame) (col : String)
    (x y : RawField) (hx : x ≠ RawField.null) (hy : y ≠ RawField.null) (hxy : x ≠ y) :
    ((generate_groupby_count_dataframe df col).map Prod.snd).sum
      = (df.rows.filterMap (rowKey col)).length ∧
    generate_groupby_count_dataframe (mkDataFrame [[(col, x)], [(col, x)], [(col, y)]]) col
      = [(x, 2), (y, 1)] := by
  constructor
  · unfold generate_groupby_count_dataframe
    rw [List.map_map]
    have hmap : ((df.rows.filterMap (rowKey col)).dedup.map
        (Prod.snd ∘ fun v => (v, (df.rows.filter (fun r => rowKey col r = some v)).length)))
        = ((df.rows.filterMap (rowKey col)).dedup.map
            (fun v => (df.rows.filterMap (rowKey col)).count v)) := by
      apply List.map_congr_left
      intro v _
      simpa using length_filter_rowKey_eq_count df.rows col v
    rw [hmap, List.sum_map_count_dedup_eq_length]
  · have kx : rowKey col [(col, x)] = some x := by simp [rowKey_single, hx]
    have ky : rowKey col [(col, y)] = some y := by simp [rowKey_single, hy]
    have hyx : y ≠ x := Ne.symm hxy
    unfold generate_groupby_count_dataframe
    simp only [mkDataFrame, List.filterMap_cons, kx, ky, List.filterMap_nil]
    have hded : ([x, x, y] : List RawField).dedup = [x, y] := by
      rw [List.dedup_cons_of_mem (by simp), List.dedup_cons_of_not_mem (by simp [hxy]),
        List.dedup_cons_of_not_mem (by simp), List.dedup_nil]
    rw [hded]
    simp [List.filter_cons, kx, ky, hxy, hyx]

/-- C2 witness: the total-count identity instantiated on a one-row
dataset, and the [x, x, y] aggregation with x = "x", y = "y". -/
theorem generate_groupby_count_dataframe_correct_witness :
    ((generate_groupby_count_dataframe (mkDataFrame [[("A", RawField.str "x")]]) "A").map
        Prod.snd).sum
      = ((mkDataFrame [[("A", RawField.str "x")]]).rows.filterMap (rowKey "A")).length ∧
    generate_groupby_count_dataframe
        (mkDataFrame [[("A", RawField.str "x")], [("A", RawField.str "x")],
          [("A", RawField.str "y")]]) "A"
      = [(RawField.str "x", 2), (RawField.str "y", 1)] :=
  generate_groupby_count_dataframe_correct (mkDataFrame [[("A", RawField.str "x")]]) "A"
    (RawField.str "x") (RawField.str "y") (by decide) (by decide) (by decide)

/-- C3 counterexample: each of the integers 1, 2, 3 is extractable on its
own, yet extracting the list [1, 2, 3] raises: `', '.join` requires `str`
elements, so the claimed list-join law fails for extractable non-string
elements. -/
theorem extract_value_list_nonstring_cex :
    extract_value (RawField.int 1) = Except.ok (RawField.int 1) ∧
    extract_value (RawField.int 2) = Except.ok (RawField.int 2) ∧
    extract_value (RawField.int 3) = Except.ok (RawField.int 3) ∧
    extract_value (RawField.list [RawField.int 1, RawField.int 2, RawField.int 3])
      = Except.error ExtractErr.joinTypeError := by
  decide

/-- C3 amended: when every element of [a, b, c] extracts to a string,
extracting the list yields the ", "-join of the three strings in order;
extracting the empty list yields the empty string. -/
theorem extract_value_list_join (a b c : RawField) (sa sb sc : String)
    (ha : extract_value a = Except.ok (RawField.str sa))
    (hb : extract_value b = Except.ok (RawField.str sb))
    (hc : extract_value c = Except.ok (RawField.str sc)) :
    extract_value (RawField.list [a, b, c])
      = Except.ok (RawField.str (sa ++ ", " ++ sb ++ ", " ++ sc)) ∧
    extract_value (RawField.list []) = Except.ok (RawField.str "") := by
  refine ⟨?_, by decide⟩
  simp [extract_value, extract_list, ha, hb, hc, pyJoin, Bind.bind, Except.bind,
    String.append_assoc]

/-- C3 witness: the amended join law at the concrete strings "a", "b", "c". -/
theorem extract_value_list_join_witness :
    extract_value (RawField.list [RawField.str "a", RawField.str "b", RawField.str "c"])
      = Except.ok (RawField.str ("a" ++ ", " ++ "b" ++ ", " ++ "c")) ∧
    extract_value (RawField.list []) = Except.ok (RawField.str "") :=
  extract_value_list_join (RawField.str "a") (RawField.str "b") (RawField.str "c")
    "a" "b" "c" (by decide) (by decide) (by decide)

/-- C4 counterexample: with a falsy stored value, `field.get('value')` is
falsy, so the value branch is skipped: {"value": 0, "name": "A"} extracts
to "A", not 0, and {"value": ""} (falsy value, no name) raises instead of
returning "". -/
theorem extract_value_dict_value_precedence_cex :
    extract_value (RawField.dict [("value", RawField.int 0), ("name", RawField.str "A")])
      = Except.ok (RawField.str "A") ∧
    RawField.str "A" ≠ RawField.int 0 ∧
    extract_value (RawField.dict [("value", RawField.str "")])
      = Except.error (ExtractErr.unsupported (RawField.dict [("value", RawField.str "")])) := by
  decide

/-- C4 amended: the branches are guarded by Python truthiness of
`field.get(...)`: a dict whose "value" entry is truthy extracts to that
entry; when "value" is absent or falsy but "name" holds a truthy entry,
the dict extracts to the "name" entry.  Precedence of "value" over "name"
holds exactly when the stored "value" is truthy. -/
theorem extract_value_dict_truthy_branches (d : List (String × RawField))
    (x y : RawField) :
    (d.lookup "value" = some x → truthy x = true →
      extract_value (RawField.dict d) = Except.ok x) ∧
    (truthy (pyGet d "value") = false → d.lookup "name" = some y → truthy y = true →
      extract_value (RawField.dict d) = Except.ok y) := by
  constructor
  · intro hl ht
    simp [extract_value, pyGet, hl, ht]
  · intro hf hl ht
    have hn : pyGet d "name" = y := by simp [pyGet, hl]
    simp only [extract_value]
    rw [hf, hn]
    simp [ht]

/-- C4 witness: both truthy-guarded branches at concrete dicts. -/
theorem extract_value_dict_truthy_branches_witness :
    extract_value (RawField.dict [("value", RawField.str "high")])
      = Except.ok (RawField.str "high") ∧
    extract_value (RawField.dict [("value", RawField.int 0), ("name", RawField.str "B")])
      = Except.ok (RawField.str "B") :=
  ⟨(extract_value_dict_truthy_branches [("value", RawField.str "high")]
      (RawField.str "high") RawField.null).1 (by decide) (by decide),
   (extract_value_dict_truthy_branches [("value", RawField.int 0), ("name", RawField.str "B")]
      RawField.null (RawField.str "B")).2 (by decide) (by decide) (by decide)⟩

/-- C5 counterexample: an option-object whose stored value is a nested
mapping extracts to that mapping unchanged — `return field['value']`
performs no recursion — so the normalized value is not a string or
numeric scalar. -/
theorem extract_value_option_nonscalar_cex :
    extract_value (RawField.dict [("value", RawField.dict [("x", RawField.int 1)])])
      = Except.ok (RawField.dict [("x", RawField.int 1)]) ∧
    isScalarNorm (RawField.dict [("x", RawField.int 1)]) = false := by
  decide

/-- C5 amended: the scalar branches return their input (hence a scalar)
and a successful list extraction always returns a string, but the dict
branches return the stored sub-value unchanged, which need not be scalar
(and a null input yields Python None). -/
theorem extract_value_scalar_shapes (f v : RawField)
    (h : extract_value f = Except.ok v) :
    (isScalarNorm f = true → v = f) ∧
    (∀ l, f = RawField.list l → isScalarNorm v = true) := by
  constructor
  · intro hs
    cases f with
    | str s => simp [extract_value] at h; simp [h.symm]
    | int n => simp [extract_value] at h; simp [h.symm]
    | float q => simp [extract_value] at h; simp [h.symm]
    | null => simp [isScalarNorm] at hs
    | bool b => simp [isScalarNorm] at hs
    | dict d => simp [isScalarNorm] at hs
    | list l => simp [isScalarNorm] at hs
  · rintro l rfl
    rw [extract_value] at h
    cases hel : extract_list l with
    | error e => rw [hel] at h; simp [Bind.bind, Except.bind] at h
    | ok vs =>
        rw [hel] at h
        simp only [Bind.bind, Except.bind] at h
        cases hj : pyJoin vs with
        | error e => rw [hj] at h; simp at h
        | ok s =>
            rw [hj] at h
            simp at h
            rw [← h]
            simp [isScalarNorm]

/-- C5 witness: a scalar input returns itself; a list of strings returns
a string scalar. -/
theorem extract_value_scalar_shapes_witness :
    RawField.int 7 = RawField.int 7 ∧ isScalarNorm (RawField.str "a") = true :=
  ⟨(extract_value_scalar_shapes (RawField.int 7) (RawField.int 7) (by decide)).1 (by decide),
   (extract_value_scalar_shapes (RawField.list [RawField.str "a"]) (RawField.str "a")
      (by decide)).2 [RawField.str "a"] rfl⟩

/-- C6: on any successful pipeline run, every column of the returned
DataFrame has an entry in the returned aggregate mapping, and the entry is
exactly `generate_groupby_count_dataframe` recomputed over that same
returned DataFrame — the loop on lines 145-147 derives the aggregates
from the very `df` that is returned. -/
theorem generate_dataframes_by_jql_consistent (catalog : List (String × String))
    (issues : List (List (String × RawField))) (df : PDataFrame)
    (aggs : List (String × List (RawField × Nat))) (c : String)
    (h : generate_dataframes_by_jql catalog issues = Except.ok (df, aggs))
    (hc : c ∈ df.columns) :
    aggs.lookup c = some (generate_groupby_count_dataframe df c) := by
  unfold generate_dataframes_by_jql at h
  cases hr : buildRows catalog issues with
  | error e => rw [hr] at h; simp [Bind.bind, Except.bind] at h
  | ok rows =>
      rw [hr] at h
      simp only [Bind.bind, Except.bind, Except.ok.injEq, Prod.mk.injEq] at h
      obtain ⟨hdf, haggs⟩ := h
      subst hdf
      subst haggs
      exact lookup_map_pair _ _ c hc

/-- C6 witness: one issue with one resolvable field; the aggregate
mapping's "Status" entry is the groupby of the returned DataFrame. -/
theorem generate_dataframes_by_jql_consistent_witness :
    List.lookup "Status"
        [("Status",
          generate_groupby_count_dataframe
            (mkDataFrame [[("Status", RawField.str "Open")]]) "Status")]
      = some (generate_groupby_count_dataframe
          (mkDataFrame [[("Status", RawField.str "Open")]]) "Status") :=
  generate_dataframes_by_jql_consistent [("f1", "Status")] [[("f1", RawField.str "Open")]]
    (mkDataFrame [[("Status", RawField.str "Open")]])
    [("Status",
      generate_groupby_count_dataframe
        (mkDataFrame [[("Status", RawField.str "Open")]]) "Status")]
    "Status" (by decide) (by decide)

/-- C7: the scalar branch `type(field) in [str, int, float]` returns the
value unchanged, for every string, integer and float. -/
theorem extract_value_scalar_identity :
    (∀ s : String, extract_value (RawField.str s) = Except.ok (RawField.str s)) ∧
    (∀ n : Int, extract_value (RawField.int n) = Except.ok (RawField.int n)) ∧
    (∀ q : ℚ, extract_value (RawField.float q) = Except.ok (RawField.float q)) := by
  refine ⟨fun s => ?_, fun n => ?_, fun q => ?_⟩ <;> simp [extract_value]

/-- C8: a dict with neither a "value" nor a "name" key, and any value of
an unanticipated type such as a boolean, falls through to the final
`raise`, which carries the offending value. -/
theorem extract_value_unsupported_shape (d : List (String × RawField)) (b : Bool)
    (hv : d.lookup "value" = none) (hn : d.lookup "name" = none) :
    extract_value (RawField.dict d)
      = Except.error (ExtractErr.unsupported (RawField.dict d)) ∧
    extract_value (RawField.bool b)
      = Except.error (ExtractErr.unsupported (RawField.bool b)) := by
  constructor
  · simp [extract_value, pyGet, hv, hn, truthy]
  · simp [extract_value]

/-- C8 witness: the spec's own example {"other": 1}, plus a boolean. -/
theorem extract_value_unsupported_shape_witness :
    extract_value (RawField.dict [("other", RawField.int 1)])
      = Except.error (ExtractErr.unsupported (RawField.dict [("other", RawField.int 1)])) ∧
    extract_value (RawField.bool true)
      = Except.error (ExtractErr.unsupported (RawField.bool true)) :=
  extract_value_unsupported_shape [("other", RawField.int 1)] true (by decide) (by decide)

/-- C9: when a record's field id is absent from the field catalog, the
key expression `all_jira_fields[k]['name']` raises `KeyError(k)`, which
propagates out of `generate_dataframes_by_jql` unswallowed (the function
contains no try/except). -/
theorem generate_dataframes_by_jql_unknown_field (catalog : List (String × String))
    (k : String) (v : RawField) (restFields : List (String × RawField))
    (restIssues : List (List (String × RawField)))
    (h : catalog.lookup k = none) :
    generate_dataframes_by_jql catalog (((k, v) :: restFields) :: restIssues)
      = Except.error (TabErr.keyError k) := by
  unfold generate_dataframes_by_jql buildRows buildRow buildRowAux
  rw [h]
  simp [Bind.bind, Except.bind]

/-- C9 witness: an empty catalog and a record referencing "customfield_1". -/
theorem generate_dataframes_by_jql_unknown_field_witness :
    generate_dataframes_by_jql [] [[("customfield_1", RawField.str "v")]]
      = Except.error (TabErr.keyError "customfield_1") :=
  generate_dataframes_by_jql_unknown_field [] "customfield_1" (RawField.str "v") [] []
    (by decide)

/-- C10: booleans hit no branch of `extract_value` — CPython's
`type(True)` is `bool`, not `int`, so `type(field) in [str, int, float]`
is false — and fall through to the `raise`. -/
theorem extract_value_bool_raises :
    extract_value (RawField.bool true)
      = Except.error (ExtractErr.unsupported (RawField.bool true)) ∧
    extract_value (RawField.bool false)
      = Except.error (ExtractErr.unsupported (RawField.bool false)) := by
  decide
